import Mathlib

/-! Verification of the scull character-device driver
(src/byesil-pa4/driver/scull.c): a shallow embedding of the ioctl
dispatcher `scull_ioctl`, the (pid, tgid) registry it maintains for the
IDENTIFY command, and the teardown report of `scull_cleanup_module`,
together with proofs of the specified properties. -/

/-- The fields of `current` (the calling `task_struct`) that the driver
reads in the SCULL_IOCIQUANTUM branch. -/
structure task_struct where
  state : Int
  cpu : Nat
  prio : Int
  pid : Int
  tgid : Int
  nvcsw : Nat
  nivcsw : Nat
deriving DecidableEq

/-- `struct task_info`, the scheduling snapshot copied to user space by
SCULL_IOCIQUANTUM. Its defining header is not under src/; the field list
is read off its uses in driver/scull.c and src/scull.c. -/
structure task_info where
  state : Int
  cpu : Nat
  prio : Int
  pid : Int
  tgid : Int
  nvcsw : Nat
  nivcsw : Nat
deriving DecidableEq

/-- `struct task_info_node`: one registry entry, a (pid, tgid) pair kept
on `task_info_node_list` in insertion order (`list_add_tail`). -/
structure task_info_node where
  pid : Int
  tgid : Int
deriving DecidableEq

/-- A user-space memory region passed as the ioctl argument, seen at the
granularity the driver uses it. `addrOk` is exactly what
`access_ok((void __user *)arg, _IOC_SIZE(cmd))` tests: the range lies in
user space. `canRead` / `canWrite` say whether an actual access made
after that check (`__get_user`, `__put_user`, `copy_to_user`) succeeds;
access_ok does not guarantee it (the range can be unmapped or mapped
read-only), which is why the driver still tests each call's return
value. `val` is the int stored in the region. -/
structure UserMem where
  addrOk : Bool
  canRead : Bool
  canWrite : Bool
  val : Int
deriving DecidableEq

/-- One decoded ioctl request. The numeric decoding of `cmd`
(`_IOC_TYPE`/`_IOC_NR` against SCULL_IOC_MAGIC / SCULL_IOC_MAXNR, all
defined in the header scull.h that is absent from src/) is modelled from
the spec: a code either names one of the eight recognized commands or is
`unrecognized` (wrong magic, number above the maximum, or unmatched by
the switch). By-value commands (TELL, SHIFT) carry the unsigned long
argument itself; by-reference commands carry the referenced region.
IDENTIFY also records whether its `kmalloc` succeeds, the one internal
resource the dispatcher consumes. -/
inductive Request where
  | reset
  | setq (m : UserMem)
  | tell (a : Nat)
  | getq (m : UserMem)
  | query
  | exchange (m : UserMem)
  | shift (a : Nat)
  | identify (m : UserMem) (allocOk : Bool)
  | unrecognized
deriving DecidableEq

def EFAULT : Int := 14

def ENOTTY : Int := 25

/-- Modelled from the spec: SCULL_QUANTUM, the compile-time default for
`scull_quantum`, lives in the missing header scull.h; the spec's scenario
fixes it at 4000. No theorem below depends on the numeric value. -/
def SCULL_QUANTUM : Int := 4000

/-- Modelled from the spec: `copy_to_user` returns the number of bytes it
could not copy, so a fully faulting copy returns sizeof(struct
task_info); the struct layout is in the missing header (40 bytes on
x86-64). No theorem depends on the numeric value, only on it being
nonzero. -/
def sizeof_task_info : Int := 40

/-- The C assignment `scull_quantum = arg` with `int scull_quantum` and
`unsigned long arg`: keep the low 32 bits of the argument, reinterpreted
as two's-complement signed (the conversion gcc performs). -/
def intOfUlong (a : Nat) : Int :=
  if a % 4294967296 < 2147483648 then ((a % 4294967296 : Nat) : Int)
  else ((a % 4294967296 : Nat) : Int) - 4294967296

/-- The `list_for_each_entry` scan in the SCULL_IOCIQUANTUM branch: does
the registry already hold an entry with this pid and tgid? -/
def registryFind (l : List task_info_node) (p t : Int) : Bool :=
  l.any (fun n => n.pid == p && n.tgid == t)

/-- The field-by-field copy of `current` into `tmp_struct`. -/
def snapshotOf (c : task_struct) : task_info :=
  ⟨c.state, c.cpu, c.prio, c.pid, c.tgid, c.nvcsw, c.nivcsw⟩

/-- The result of one `scull_ioctl` call: the returned long, the quantum
and registry afterwards, the argument region afterwards (for by-reference
commands; `none` otherwise), and the task_info delivered to user space
(when IDENTIFY's `copy_to_user` succeeded). -/
structure Outcome where
  retval : Int
  scull_quantum : Int
  registry : List task_info_node
  mem : Option UserMem
  snap : Option task_info
deriving DecidableEq

/-- The ioctl dispatcher (`scull_ioctl` in driver/scull.c). In the source
the command-code checks come first (`-ENOTTY`), then
`access_ok((void __user *)arg, _IOC_SIZE(cmd))` (`-EFAULT`), then the
switch; `_IOC_SIZE` is zero for the commands that carry no region
(modelled from the spec, the encodings being in the missing scull.h), so
access_ok is written here inside each by-reference branch, where it is
the test of that branch's region. Accesses after a passing access_ok can
still fault: `__get_user` faults iff `¬canRead` and is modelled as
leaving its destination unchanged, `__put_user` and `copy_to_user` fault
iff `¬canWrite`. -/
def scull_ioctl (current : task_struct) (q : Int) (reg : List task_info_node) :
    Request → Outcome
  | .unrecognized => ⟨-ENOTTY, q, reg, none, none⟩
  | .reset => ⟨0, SCULL_QUANTUM, reg, none, none⟩
  | .setq m =>
      if !m.addrOk then ⟨-EFAULT, q, reg, some m, none⟩
      else if m.canRead then ⟨0, m.val, reg, some m, none⟩
      else ⟨-EFAULT, q, reg, some m, none⟩
  | .tell a => ⟨0, intOfUlong a, reg, none, none⟩
  | .getq m =>
      if !m.addrOk then ⟨-EFAULT, q, reg, some m, none⟩
      else if m.canWrite then ⟨0, q, reg, some { m with val := q }, none⟩
      else ⟨-EFAULT, q, reg, some m, none⟩
  | .query => ⟨q, q, reg, none, none⟩
  | .exchange m =>
      if !m.addrOk then ⟨-EFAULT, q, reg, some m, none⟩
      else if m.canRead then
        if m.canWrite then ⟨0, m.val, reg, some { m with val := q }, none⟩
        else ⟨-EFAULT, m.val, reg, some m, none⟩
      else ⟨-EFAULT, q, reg, some m, none⟩
  | .shift a => ⟨q, intOfUlong a, reg, none, none⟩
  | .identify m allocOk =>
      if !m.addrOk then ⟨-EFAULT, q, reg, some m, none⟩
      else if m.canWrite then
        ⟨0, q,
          if registryFind reg current.pid current.tgid then reg
          else if allocOk then reg ++ [⟨current.pid, current.tgid⟩] else reg,
          some m, some (snapshotOf current)⟩
      else ⟨sizeof_task_info, q, reg, some m, none⟩

/-- The user region referenced by a request, for the four by-reference
commands. -/
def Request.memArg : Request → Option UserMem
  | .setq m => some m
  | .getq m => some m
  | .exchange m => some m
  | .identify m _ => some m
  | _ => none

/-- One logged call: the calling task and its request. The registry mutex
serializes the IDENTIFY bodies, so a concurrent history is modelled by
the sequence of its lock-ordered calls. -/
structure Call where
  task : task_struct
  req : Request
deriving DecidableEq

/-- Run a sequence of ioctl calls, threading quantum and registry. -/
def runCalls (q : Int) (reg : List task_info_node) : List Call → Int × List task_info_node
  | [] => (q, reg)
  | c :: rest =>
      let o := scull_ioctl c.task q reg c.req
      runCalls o.scull_quantum o.registry rest

/-- The report-and-free loop of `scull_cleanup_module`: one
`(count, pid, tgid)` line per node in list order, `count` starting at 1,
each node unlinked and freed. -/
def drainLoop : Nat → List task_info_node → List (Nat × Int × Int)
  | _, [] => []
  | count, n :: rest => (count, n.pid, n.tgid) :: drainLoop (count + 1) rest

/-- `scull_cleanup_module`'s effect on the registry: the printed report
and the emptied list. -/
def scull_cleanup_module (reg : List task_info_node) :
    List (Nat × Int × Int) × List task_info_node :=
  (drainLoop 1 reg, [])

/-- The uniqueness key of a registry node. -/
def nodeKey (n : task_info_node) : Int × Int := (n.pid, n.tgid)

/-- The caller identity of a call. -/
def callKey (c : Call) : Int × Int := (c.task.pid, c.task.tgid)

/-- An IDENTIFY call whose user copy and node allocation both succeed. -/
def goodIdentify : Call → Bool
  | ⟨_, .identify m allocOk⟩ => m.addrOk && m.canWrite && allocOk
  | _ => false

/-- Spec-side description of the registry contents: the sub-list of first
occurrences of the identities, in order of first appearance. -/
def specFirstOccurrences : List (Int × Int) → List (Int × Int)
  | [] => []
  | k :: ks => k :: (specFirstOccurrences ks).filter (fun x => decide (x ≠ k))

/-- Spec-side description of the teardown report: the identities numbered
consecutively starting from `k`. -/
def specNumbered (k : Nat) : List (Int × Int) → List (Nat × Int × Int)
  | [] => []
  | x :: xs => (k, x.1, x.2) :: specNumbered (k + 1) xs

/-- Fold-style view of repeated findOrInsert on identity keys. -/
def insertKeys (acc : List (Int × Int)) : List (Int × Int) → List (Int × Int)
  | [] => acc
  | k :: ks => insertKeys (if k ∈ acc then acc else acc ++ [k]) ks

/-- C4: a successful EXCHANGE with a readable, writable region holding v
leaves the quantum equal to v, writes the prior quantum q back through the
caller's reference, and returns 0. -/
theorem exchange_success_swaps (v q : Int) (t : task_struct) (reg : List task_info_node) :
    scull_ioctl t q reg (.exchange ⟨true, true, true, v⟩) =
      ⟨0, v, reg, some ⟨true, true, true, q⟩, none⟩ := rfl

/-- C5: SHIFT(v) is observationally equivalent to the sequential program
old := QUERY(); TELL(v); return old — same return value, same final
quantum, same final registry. -/
theorem shift_equiv_query_then_tell (t : task_struct) (q : Int)
    (reg : List task_info_node) (v : Nat) :
    (scull_ioctl t q reg (.shift v)).retval = (scull_ioctl t q reg .query).retval ∧
    (scull_ioctl t q reg (.shift v)).scull_quantum =
      (scull_ioctl t (scull_ioctl t q reg .query).scull_quantum
        (scull_ioctl t q reg .query).registry (.tell v)).scull_quantum ∧
    (scull_ioctl t q reg (.shift v)).registry =
      (scull_ioctl t (scull_ioctl t q reg .query).scull_quantum
        (scull_ioctl t q reg .query).registry (.tell v)).registry :=
  ⟨rfl, rfl, rfl⟩

/-- C6: after any finite sequence of commands from any starting state,
RESET followed by QUERY returns the compile-time default constant, and a
second RESET changes neither the quantum nor the registry. -/
theorem reset_then_query_default (calls : List Call) (q0 : Int)
    (reg0 : List task_info_node) (t1 t2 t3 : task_struct) :
    (scull_ioctl t2
        (scull_ioctl t1 (runCalls q0 reg0 calls).1 (runCalls q0 reg0 calls).2 .reset).scull_quantum
        (scull_ioctl t1 (runCalls q0 reg0 calls).1 (runCalls q0 reg0 calls).2 .reset).registry
        .query).retval = SCULL_QUANTUM ∧
    (scull_ioctl t3
        (scull_ioctl t1 (runCalls q0 reg0 calls).1 (runCalls q0 reg0 calls).2 .reset).scull_quantum
        (scull_ioctl t1 (runCalls q0 reg0 calls).1 (runCalls q0 reg0 calls).2 .reset).registry
        .reset).scull_quantum =
      (scull_ioctl t1 (runCalls q0 reg0 calls).1 (runCalls q0 reg0 calls).2 .reset).scull_quantum ∧
    (scull_ioctl t3
        (scull_ioctl t1 (runCalls q0 reg0 calls).1 (runCalls q0 reg0 calls).2 .reset).scull_quantum
        (scull_ioctl t1 (runCalls q0 reg0 calls).1 (runCalls q0 reg0 calls).2 .reset).registry
        .reset).registry =
      (scull_ioctl t1 (runCalls q0 reg0 calls).1 (runCalls q0 reg0 calls).2 .reset).registry :=
  ⟨rfl, rfl, rfl⟩

/-- C7: an unrecognized command code (wrong magic, number above the
maximum, or unmatched by the switch) returns -ENOTTY and mutates neither
the quantum nor the registry. -/
theorem unrecognized_cmd_no_effect (t : task_struct) (q : Int)
    (reg : List task_info_node) :
    scull_ioctl t q reg .unrecognized = ⟨-ENOTTY, q, reg, none, none⟩ := rfl

/-- C8: when kmalloc fails during an IDENTIFY whose copy_to_user already
succeeded, the call still returns 0, the snapshot is delivered, and the
registry is left unchanged (the insert is skipped). -/
theorem identify_alloc_failure_nonfatal (t : task_struct) (q : Int)
    (reg : List task_info_node) (v : Int) :
    scull_ioctl t q reg (.identify ⟨true, true, true, v⟩ false) =
      ⟨0, q, reg, some ⟨true, true, true, v⟩, some (snapshotOf t)⟩ := by
  simp [scull_ioctl]

/-- C9: draining an empty registry reports nothing and changes nothing;
one drain leaves the registry empty, so a second drain is a trivial
no-op. -/
theorem cleanup_drain_idempotent (reg : List task_info_node) :
    (scull_cleanup_module reg).2 = [] ∧
    scull_cleanup_module [] = ([], []) ∧
    scull_cleanup_module (scull_cleanup_module reg).2 = ([], []) :=
  ⟨rfl, rfl, rfl⟩

/-- C10: TELL and SHIFT store the low 32 bits of their unsigned-long
argument into the signed quantum: both leave the same quantum, congruent
to the argument modulo 2^32 and within the signed 32-bit range. -/
theorem tell_shift_wrap_int32 (a : Nat) (t : task_struct) (q : Int)
    (reg : List task_info_node) :
    (scull_ioctl t q reg (.shift a)).scull_quantum =
      (scull_ioctl t q reg (.tell a)).scull_quantum ∧
    (scull_ioctl t q reg (.tell a)).scull_quantum % 4294967296 =
      (a : Int) % 4294967296 ∧
    -2147483648 ≤ (scull_ioctl t q reg (.tell a)).scull_quantum ∧
    (scull_ioctl t q reg (.tell a)).scull_quantum < 2147483648 := by
  have h : intOfUlong a % 4294967296 = (a : Int) % 4294967296 ∧
      -2147483648 ≤ intOfUlong a ∧ intOfUlong a < 2147483648 := by
    unfold intOfUlong
    split <;> omega
  exact ⟨rfl, h.1, h.2.1, h.2.2⟩

/-- C1 (counterexample): an EXCHANGE against a region that access_ok
accepts and that is readable but not writable (a read-only user mapping)
reports -EFAULT, yet the quantum has already been overwritten with the
value read from the region: the failing call does change state. -/
theorem exchange_writeback_fault_mutates_quantum :
    (scull_ioctl ⟨0, 0, 0, 1, 1, 0, 0⟩ 7 [] (.exchange ⟨true, true, false, 5⟩)).retval =
      -EFAULT ∧
    (scull_ioctl ⟨0, 0, 0, 1, 1, 0, 0⟩ 7 [] (.exchange ⟨true, true, false, 5⟩)).scull_quantum ≠ 7 := by
  decide

/-- C1 (amended): for every by-reference command, when the region fails
the access_ok pre-check the dispatcher returns -EFAULT and nothing
changes: quantum, registry and the caller's region are exactly as before
and no snapshot is delivered. (Faults occurring after a passing
access_ok are reported but, for EXCHANGE, can leave the quantum already
overwritten, as the counterexample shows.) -/
theorem access_ok_failure_is_pure_error (t : task_struct) (q : Int)
    (reg : List task_info_node) (r : Request) (m : UserMem)
    (hm : r.memArg = some m) (h : m.addrOk = false) :
    scull_ioctl t q reg r = ⟨-EFAULT, q, reg, some m, none⟩ := by
  cases r <;> simp_all [scull_ioctl, Request.memArg]

/-- Concrete instance of the amended C1 theorem: a GET whose region fails
access_ok returns -EFAULT and leaves everything unchanged. -/
theorem access_ok_failure_is_pure_error_witness :
    scull_ioctl ⟨0, 0, 0, 1, 1, 0, 0⟩ 7 [] (.getq ⟨false, true, true, 0⟩) =
      ⟨-EFAULT, 7, [], some ⟨false, true, true, 0⟩, none⟩ :=
  access_ok_failure_is_pure_error _ _ _ _ _ rfl rfl

lemma registryFind_iff (l : List task_info_node) (p t : Int) :
    registryFind l p t = true ↔ (p, t) ∈ l.map nodeKey := by
  simp [registryFind, List.any_eq_true, nodeKey, List.mem_map, Prod.ext_iff]

lemma insertKeys_spec : ∀ (ks acc : List (Int × Int)),
    insertKeys acc ks = acc ++ (specFirstOccurrences ks).filter (fun x => decide (x ∉ acc))
  | [], acc => by simp [insertKeys, specFirstOccurrences]
  | k :: ks, acc => by
      by_cases hk : k ∈ acc
      · rw [insertKeys, if_pos hk, insertKeys_spec ks acc, specFirstOccurrences]
        rw [List.filter_cons]
        simp only [hk, decide_not, not_true_eq_false, decide_False, Bool.not_false,
          Bool.false_eq_true, if_false, List.filter_filter]
        congr 1
        apply List.filter_congr
        intro x hx
        by_cases hx3 : x = k
        · subst hx3; simp [hk]
        · simp [hx3]
      · rw [insertKeys, if_neg hk, insertKeys_spec ks (acc ++ [k]), specFirstOccurrences]
        rw [List.filter_cons]
        simp only [hk, decide_not, not_false_eq_true, decide_True, Bool.not_true, if_true,
          List.filter_filter, List.append_assoc, List.singleton_append]
        congr 2
        apply List.filter_congr
        intro x hx
        by_cases hx3 : x = k
        · simp [hx3, hk]
        · simp [List.mem_append, hx3]

lemma firstOcc_mem : ∀ (ks : List (Int × Int)) (x : Int × Int),
    x ∈ specFirstOccurrences ks ↔ x ∈ ks
  | [], x => Iff.rfl
  | k :: ks, x => by
      simp only [specFirstOccurrences, List.mem_cons, List.mem_filter]
      by_cases hx : x = k
      · simp [hx]
      · simp [hx, firstOcc_mem ks x]

lemma firstOcc_nodup : ∀ ks : List (Int × Int), (specFirstOccurrences ks).Nodup
  | [] => List.nodup_nil
  | k :: ks => by
      rw [specFirstOccurrences]
      refine List.Nodup.cons ?_ ((firstOcc_nodup ks).filter _)
      intro hmem
      rw [List.mem_filter] at hmem
      simp at hmem

lemma ioctl_good_identify (t : task_struct) (q : Int) (reg : List task_info_node)
    (m : UserMem) (h1 : m.addrOk = true) (h2 : m.canWrite = true) :
    scull_ioctl t q reg (.identify m true) =
      ⟨0, q, if registryFind reg t.pid t.tgid then reg else reg ++ [⟨t.pid, t.tgid⟩],
        some m, some (snapshotOf t)⟩ := by
  simp [scull_ioctl, h1, h2]

lemma runCalls_keys : ∀ (calls : List Call) (q0 : Int) (reg : List task_info_node),
    (∀ c ∈ calls, goodIdentify c = true) →
    ((runCalls q0 reg calls).2).map nodeKey = insertKeys (reg.map nodeKey) (calls.map callKey)
  | [], _, _, _ => rfl
  | ⟨t, r⟩ :: rest, q0, reg, h => by
      have hc : goodIdentify ⟨t, r⟩ = true := h _ (List.mem_cons_self _ _)
      have hrest : ∀ c ∈ rest, goodIdentify c = true :=
        fun c hcm => h c (List.mem_cons_of_mem _ hcm)
      cases r with
      | identify m b =>
          simp only [goodIdentify, Bool.and_eq_true] at hc
          obtain ⟨⟨h1, h2⟩, h3⟩ := hc
          subst h3
          simp only [runCalls, ioctl_good_identify t q0 reg m h1 h2, List.map_cons]
          rw [runCalls_keys rest q0 _ hrest, insertKeys, callKey]
          congr 1
          by_cases hf : (t.pid, t.tgid) ∈ reg.map nodeKey
          · rw [if_pos ((registryFind_iff reg t.pid t.tgid).mpr hf), if_pos hf]
          · rw [if_neg (fun hb => hf ((registryFind_iff reg t.pid t.tgid).mp hb)), if_neg hf]
            simp [nodeKey]
      | reset => simp [goodIdentify] at hc
      | setq m => simp [goodIdentify] at hc
      | tell a => simp [goodIdentify] at hc
      | getq m => simp [goodIdentify] at hc
      | query => simp [goodIdentify] at hc
      | exchange m => simp [goodIdentify] at hc
      | shift a => simp [goodIdentify] at hc
      | unrecognized => simp [goodIdentify] at hc

lemma runCalls_keys_from_empty (calls : List Call) (q0 : Int)
    (h : ∀ c ∈ calls, goodIdentify c = true) :
    ((runCalls q0 [] calls).2).map nodeKey = specFirstOccurrences (calls.map callKey) := by
  rw [runCalls_keys calls q0 [] h]
  rw [insertKeys_spec]
  simp

lemma drainLoop_keys : ∀ (k : Nat) (reg : List task_info_node),
    (drainLoop k reg).map (fun e => (e.2.1, e.2.2)) = reg.map nodeKey
  | _, [] => rfl
  | k, n :: rest => by simp [drainLoop, nodeKey, drainLoop_keys (k + 1) rest]

lemma drainLoop_numbered : ∀ (k : Nat) (reg : List task_info_node),
    drainLoop k reg = specNumbered k (reg.map nodeKey)
  | _, [] => rfl
  | k, n :: rest => by
      simp [drainLoop, specNumbered, nodeKey, drainLoop_numbered (k + 1) rest]

lemma drainLoop_map_fst : ∀ (k : Nat) (reg : List task_info_node),
    (drainLoop k reg).map Prod.fst = List.range' k reg.length
  | _, [] => rfl
  | k, n :: rest => by
      simp [drainLoop, List.range', drainLoop_map_fst (k + 1) rest]

/-- C2: for every sequence of successful IDENTIFY calls, the teardown
report carries no duplicate identity and its identities are exactly the
distinct identities used, regardless of call count or order. -/
theorem identify_report_unique_per_identity (calls : List Call) (q0 : Int)
    (h : ∀ c ∈ calls, goodIdentify c = true) :
    ((drainLoop 1 (runCalls q0 [] calls).2).map (fun e => (e.2.1, e.2.2))).Nodup ∧
    ((drainLoop 1 (runCalls q0 [] calls).2).map (fun e => (e.2.1, e.2.2))).toFinset =
      (calls.map callKey).toFinset := by
  rw [drainLoop_keys, runCalls_keys_from_empty calls q0 h]
  refine ⟨firstOcc_nodup _, ?_⟩
  ext k
  simp [List.mem_toFinset, firstOcc_mem]

/-- The spec's scenario trace for the registry claims: four IDENTIFY
calls from identities (10,10), (11,11), (10,10), (12,12). -/
def scenarioCallsA : List Call :=
  [⟨⟨0, 0, 0, 10, 10, 0, 0⟩, .identify ⟨true, true, true, 0⟩ true⟩,
   ⟨⟨0, 0, 0, 11, 11, 0, 0⟩, .identify ⟨true, true, true, 0⟩ true⟩,
   ⟨⟨0, 0, 0, 10, 10, 0, 0⟩, .identify ⟨true, true, true, 0⟩ true⟩,
   ⟨⟨0, 0, 0, 12, 12, 0, 0⟩, .identify ⟨true, true, true, 0⟩ true⟩]

/-- Concrete instance of the C2 theorem on the spec's scenario trace. -/
theorem identify_report_unique_per_identity_witness :
    (∀ c ∈ scenarioCallsA, goodIdentify c = true) ∧
    (((drainLoop 1 (runCalls 0 [] scenarioCallsA).2).map (fun e => (e.2.1, e.2.2))).Nodup ∧
      ((drainLoop 1 (runCalls 0 [] scenarioCallsA).2).map (fun e => (e.2.1, e.2.2))).toFinset =
        (scenarioCallsA.map callKey).toFinset) :=
  ⟨by decide, identify_report_unique_per_identity scenarioCallsA 0 (by decide)⟩

/-- C3: for every sequence of successful IDENTIFY calls, the teardown
report is exactly the identities in order of their first recording
(later duplicate calls do not reorder), numbered consecutively from 1. -/
theorem report_follows_first_insertion_order (calls : List Call) (q0 : Int)
    (h : ∀ c ∈ calls, goodIdentify c = true) :
    drainLoop 1 (runCalls q0 [] calls).2 =
      specNumbered 1 (specFirstOccurrences (calls.map callKey)) ∧
    (drainLoop 1 (runCalls q0 [] calls).2).map Prod.fst =
      List.range' 1 (runCalls q0 [] calls).2.length := by
  constructor
  · rw [drainLoop_numbered, runCalls_keys_from_empty calls q0 h]
  · exact drainLoop_map_fst 1 _

/-- Same scenario trace, for the ordering claim. -/
def scenarioCallsB : List Call :=
  [⟨⟨0, 0, 0, 10, 10, 0, 0⟩, .identify ⟨true, true, true, 0⟩ true⟩,
   ⟨⟨0, 0, 0, 11, 11, 0, 0⟩, .identify ⟨true, true, true, 0⟩ true⟩,
   ⟨⟨0, 0, 0, 10, 10, 0, 0⟩, .identify ⟨true, true, true, 0⟩ true⟩,
   ⟨⟨0, 0, 0, 12, 12, 0, 0⟩, .identify ⟨true, true, true, 0⟩ true⟩]

/-- Concrete instance of the C3 theorem on the spec's scenario trace:
the report is (1,10,10), (2,11,11), (3,12,12). -/
theorem report_follows_first_insertion_order_witness :
    (∀ c ∈ scenarioCallsB, goodIdentify c = true) ∧
    (drainLoop 1 (runCalls 0 [] scenarioCallsB).2 =
        specNumbered 1 (specFirstOccurrences (scenarioCallsB.map callKey)) ∧
      (drainLoop 1 (runCalls 0 [] scenarioCallsB).2).map Prod.fst =
        List.range' 1 (runCalls 0 [] scenarioCallsB).2.length) :=
  ⟨by decide, report_follows_first_insertion_order scenarioCallsB 0 (by decide)⟩
